import Mathlib

/-!
Verification development for the automotive-debugger log-ingestion core
(python-backend): CAN line parsers (`parsers/can_parser.py`,
`parsers/asc_parser.py`), the DBC signal decoder (`parsers/dbc_parser.py`),
the fault detector (`analyzers/error_detector.py`), and format
auto-detection (`parsers/auto_detector.py`).

Modelling conventions:
* Python strings are modelled as `List Char`, restricted to ASCII text
  (the regular-expression character classes `\d`, `\w`, `\s` are modelled
  by their ASCII parts).
* Python `re.match` is modelled by a small backtracking engine (`runRE`)
  over regex ASTs transcribed from the source patterns; alternatives are
  explored in the standard leftmost/greedy priority order, and the first
  full match is returned, which is exactly CPython's strategy for these
  patterns.
* Python floats parsed from decimal literals are modelled exactly as
  scaled decimals (`PyFloat`, value `mant / 10^scale`); the arithmetic the
  code performs on them (subtraction, scaling, comparison) is exact in
  this range, and `PyFloat.toQ` gives the rational value.
* A raised-and-caught exception on one input line (e.g. `ValueError` from
  `bytes.fromhex`) makes the surrounding code drop that line, exactly as
  a `none` result does, so fallible steps are modelled with `Option`.
-/

/-- Exact decimal number `mant / 10 ^ scale`, the model of the Python
floats produced by parsing decimal text in the log parsers. -/
structure PyFloat where
  mant : Int
  scale : Nat
  deriving DecidableEq, Repr

/-- Rational value of a `PyFloat`. -/
def PyFloat.toQ (a : PyFloat) : ℚ := (a.mant : ℚ) / (10 : ℚ) ^ a.scale

/-- Boolean `≤` on `PyFloat` values (cross multiplication). -/
def PyFloat.leB (a b : PyFloat) : Bool :=
  decide (a.mant * (10 : Int) ^ b.scale ≤ b.mant * (10 : Int) ^ a.scale)

/-- Boolean `<` on `PyFloat` values. -/
def PyFloat.ltB (a b : PyFloat) : Bool :=
  decide (a.mant * (10 : Int) ^ b.scale < b.mant * (10 : Int) ^ a.scale)

/-- Exact subtraction of `PyFloat` values. -/
def PyFloat.sub (a b : PyFloat) : PyFloat :=
  ⟨a.mant * (10 : Int) ^ b.scale - b.mant * (10 : Int) ^ a.scale, a.scale + b.scale⟩

/-- Multiplication of a `PyFloat` by a natural number. -/
def PyFloat.mulNat (a : PyFloat) (n : Nat) : PyFloat :=
  ⟨a.mant * (n : Int), a.scale⟩

/- ### Character classes (ASCII model of Python regex classes) -/

/-- Python regex `\d` (ASCII part). -/
def digitC (c : Char) : Bool := '0' ≤ c && c ≤ '9'

/-- Python regex `[0-9A-Fa-f]`. -/
def hexC (c : Char) : Bool :=
  ('0' ≤ c && c ≤ '9') || ('A' ≤ c && c ≤ 'F') || ('a' ≤ c && c ≤ 'f')

/-- Python regex `[0-9A-F]` (upper-case hex only). -/
def hexUC (c : Char) : Bool :=
  ('0' ≤ c && c ≤ '9') || ('A' ≤ c && c ≤ 'F')

/-- Python regex `[0-9A-Fa-fx]`. -/
def hexXC (c : Char) : Bool := hexC c || c == 'x'

/-- Python regex `\w` (ASCII part). -/
def wordC (c : Char) : Bool :=
  ('a' ≤ c && c ≤ 'z') || ('A' ≤ c && c ≤ 'Z') || ('0' ≤ c && c ≤ '9') || c == '_'

/-- Python regex `\s` (ASCII part), also Python's ASCII whitespace. -/
def spaceC (c : Char) : Bool :=
  c == ' ' || c == '\t' || c == '\n' || c == '\r' || c == '\x0b' || c == '\x0c'

/-- Python regex `[0-9A-Fa-f\s]`. -/
def hexSpaceC (c : Char) : Bool := hexC c || spaceC c

/-- Python regex `[0-9A-Fa-f,\s]`. -/
def hexCommaSpaceC (c : Char) : Bool := hexC c || c == ',' || spaceC c

/- ### A small regex engine with CPython match semantics

Quantifiers in the source patterns are only ever applied to single-character
classes, so the AST offers greedy `star`/`plus`/`optC`/`repN` over a class,
plus literals, concatenation, alternation and numbered capture groups. -/

/-- Regex ASTs for the patterns appearing in the source. -/
inductive RE where
  | eps : RE
  | lit : Char → RE
  | cls : (Char → Bool) → RE
  | seq : RE → RE → RE
  | alt : RE → RE → RE
  | star : (Char → Bool) → RE
  | plus : (Char → Bool) → RE
  | optC : (Char → Bool) → RE
  | repN : Nat → (Char → Bool) → RE
  | group : Nat → RE → RE

/-- Captured groups: group number to captured character run. -/
abbrev Caps := List (Nat × List Char)

/-- Length of the maximal run of characters satisfying `p`. -/
def runLen (p : Char → Bool) : List Char → Nat
  | [] => 0
  | c :: cs => if p c then runLen p cs + 1 else 0

/-- All ways a regex can match a prefix of the input, as `(rest, captures)`
pairs in CPython's backtracking priority order (leftmost alternative first,
greedy quantifiers longest first). -/
def runRE : RE → List Char → Caps → List (List Char × Caps)
  | .eps, s, caps => [(s, caps)]
  | .lit c, s, caps =>
      match s with
      | [] => []
      | d :: ds => if d == c then [(ds, caps)] else []
  | .cls p, s, caps =>
      match s with
      | [] => []
      | d :: ds => if p d then [(ds, caps)] else []
  | .seq a b, s, caps =>
      (runRE a s caps).flatMap (fun x => runRE b x.1 x.2)
  | .alt a b, s, caps => runRE a s caps ++ runRE b s caps
  | .star p, s, caps =>
      (List.range (runLen p s + 1)).map (fun j => (s.drop (runLen p s - j), caps))
  | .plus p, s, caps =>
      (List.range (runLen p s)).map (fun j => (s.drop (runLen p s - j), caps))
  | .optC p, s, caps =>
      match s with
      | [] => [(s, caps)]
      | d :: ds => if p d then [(ds, caps), (s, caps)] else [(s, caps)]
  | .repN n p, s, caps =>
      if n ≤ runLen p s then [(s.drop n, caps)] else []
  | .group i r, s, caps =>
      (runRE r s caps).map (fun x => (x.1, (i, s.take (s.length - x.1.length)) :: x.2))

/-- Model of Python `pattern.match(s)`: the first match anchored at the
start of the string (the match need not span the whole string). -/
def reMatch (r : RE) (s : List Char) : Option Caps :=
  (runRE r s []).head?.map (·.2)

/-- Model of Python `pattern.search(s)` as a Boolean: some suffix position
admits a match. -/
def reSearch (r : RE) (s : List Char) : Bool :=
  (reMatch r s).isSome ||
    (match s with
     | [] => false
     | _ :: t => reSearch r t)

/-- `match.group(i)`; all groups used below participate in every match. -/
def capGet (caps : Caps) (i : Nat) : List Char := (caps.lookup i).getD []

/-- Concatenation of a list of regexes. -/
def rcat (rs : List RE) : RE := rs.foldr RE.seq RE.eps

/-- Literal word regex. -/
def litS (s : String) : RE := rcat (s.toList.map RE.lit)

/- ### The regex table of `CANParser.__init__` (can_parser.py) -/

/-- `(\d+\.\d+)` — a captured decimal float literal, as group `i`. -/
def floatG (i : Nat) : RE :=
  RE.group i (rcat [RE.plus digitC, RE.lit '.', RE.plus digitC])

/-- SocketCAN pattern `\((\d+\.\d+)\)\s+(\w+)\s+([0-9A-Fa-f]+)#([0-9A-Fa-f]*)`. -/
def socketcanRE : RE :=
  rcat [RE.lit '(', floatG 1, RE.lit ')', RE.plus spaceC,
    RE.group 2 (RE.plus wordC), RE.plus spaceC,
    RE.group 3 (RE.plus hexC), RE.lit '#', RE.group 4 (RE.star hexC)]

/-- ASC pattern
`^(\d+\.\d+)\s+(\d+)\s+([0-9A-Fa-fx]+)\s+(Rx|Tx)\s+d\s+(\d+)\s+([0-9A-Fa-f\s]+)`. -/
def ascRE : RE :=
  rcat [floatG 1, RE.plus spaceC, RE.group 2 (RE.plus digitC), RE.plus spaceC,
    RE.group 3 (RE.plus hexXC), RE.plus spaceC,
    RE.group 4 (RE.alt (litS ("Rx")) (litS ("Tx"))), RE.plus spaceC,
    RE.lit 'd', RE.plus spaceC, RE.group 5 (RE.plus digitC), RE.plus spaceC,
    RE.group 6 (RE.plus hexSpaceC)]

/-- PCAN pattern `(\d+)\s+(\d+\.\d+)\s+(Rx|Tx)\s+([0-9A-Fa-f]+)\s+(\d+)\s+([0-9A-Fa-f\s]+)`. -/
def pcanRE : RE :=
  rcat [RE.group 1 (RE.plus digitC), RE.plus spaceC, floatG 2, RE.plus spaceC,
    RE.group 3 (RE.alt (litS ("Rx")) (litS ("Tx"))), RE.plus spaceC,
    RE.group 4 (RE.plus hexC), RE.plus spaceC, RE.group 5 (RE.plus digitC),
    RE.plus spaceC, RE.group 6 (RE.plus hexSpaceC)]

/-- Simple pattern `(\d+\.?\d*),([0-9A-Fa-f]+),(\d+),([0-9A-Fa-f,\s]+)`. -/
def simpleRE : RE :=
  rcat [RE.group 1 (rcat [RE.plus digitC, RE.optC (fun c => c == '.'), RE.star digitC]),
    RE.lit ',', RE.group 2 (RE.plus hexC), RE.lit ',', RE.group 3 (RE.plus digitC),
    RE.lit ',', RE.group 4 (RE.plus hexCommaSpaceC)]

/-- J1939 pattern `\((\d+\.\d+)\)\s+(\w+)\s+(1[0-9A-Fa-f]{7})#([0-9A-Fa-f]*)`. -/
def j1939RE : RE :=
  rcat [RE.lit '(', floatG 1, RE.lit ')', RE.plus spaceC,
    RE.group 2 (RE.plus wordC), RE.plus spaceC,
    RE.group 3 (rcat [RE.lit '1', RE.repN 7 hexC]), RE.lit '#',
    RE.group 4 (RE.star hexC)]

/- ### Numeric and string helpers mirroring the Python built-ins used -/

/-- Value of a decimal digit run (`int(s)` on a `\d+` capture). -/
def parseDec (s : List Char) : Nat :=
  s.foldl (fun a c => a * 10 + (c.toNat - 48)) 0

/-- Value of one hex digit (callers guarantee a hex character). -/
def hexDigitVal (c : Char) : Nat :=
  if '0' ≤ c && c ≤ '9' then c.toNat - 48
  else if 'A' ≤ c && c ≤ 'F' then c.toNat - 55
  else if 'a' ≤ c && c ≤ 'f' then c.toNat - 87
  else 0

/-- `int(s, 16)` on a capture known to be nonempty hex. -/
def parseHexVal (s : List Char) : Nat :=
  s.foldl (fun a c => a * 16 + hexDigitVal c) 0

/-- `int(s, 16)` on arbitrary text: fails (raises in Python) when `s` is
empty or contains a non-hex character. -/
def parseHexOpt (s : List Char) : Option Nat :=
  if s.isEmpty then none
  else if s.all hexC then some (parseHexVal s) else none

/-- Split a digit run at its first dot (`1000.000000` → `1000`, `000000`). -/
def splitDot : List Char → List Char × List Char
  | [] => ([], [])
  | c :: cs =>
      if c == '.' then ([], cs)
      else
        let r := splitDot cs
        (c :: r.1, r.2)

/-- `float(s)` on a `\d+\.?\d*`-shaped capture, exactly. -/
def pyFloatOfDigits (s : List Char) : PyFloat :=
  let r := splitDot s
  ⟨(parseDec (r.1 ++ r.2) : Int), r.2.length⟩

/-- `bytes.fromhex(s)`: ASCII whitespace is skipped between byte pairs
(but may not split a pair); `none` models the `ValueError` raised on an
odd digit count or a non-hex character. -/
def pyFromhex : List Char → Option (List Nat)
  | [] => some []
  | c :: rest =>
      if spaceC c then pyFromhex rest
      else
        match rest with
        | [] => none
        | d :: rest2 =>
            if hexC c && hexC d then
              (pyFromhex rest2).map
                (fun l => (hexDigitVal c * 16 + hexDigitVal d) :: l)
            else none

/-- Python `str.lower` (ASCII part). -/
def toLowerL (s : List Char) : List Char := s.map Char.toLower

/-- Python `str.strip()` (ASCII whitespace). -/
def pyStrip (s : List Char) : List Char :=
  ((s.dropWhile spaceC).reverse.dropWhile spaceC).reverse

/-- Does `s` start with `pre`? (Python `str.startswith`.) -/
def startsWithL : List Char → List Char → Bool
  | _, [] => true
  | [], _ :: _ => false
  | c :: cs, d :: ds => c == d && startsWithL cs ds

/-- Python substring test `sub in s`. -/
def containsSub (s sub : List Char) : Bool :=
  startsWithL s sub ||
    (match s with
     | [] => false
     | _ :: t => containsSub t sub)

/- ### `CANMessage` and `CANParser.parse_line` (can_parser.py) -/

/-- The `CANMessage` dataclass of can_parser.py. -/
structure CANMessage where
  timestamp : PyFloat
  channel : List Char
  can_id : Nat
  is_extended : Bool
  is_error : Bool
  is_remote : Bool
  dlc : Nat
  data : List Nat
  raw_line : List Char
  deriving DecidableEq, Repr

/-- The SocketCAN branch of `parse_line` (can_parser.py lines 168-192);
`none` models the uncaught `ValueError` of `bytes.fromhex` on an
odd-length data run, which makes `parse_file` skip the line. -/
def socketFromCaps (line : List Char) (caps : Caps) : Option CANMessage :=
  let idStr := capGet caps 3
  (pyFromhex (capGet caps 4)).map (fun dataBytes =>
    { timestamp := pyFloatOfDigits (capGet caps 1)
      channel := capGet caps 2
      can_id := parseHexVal idStr
      is_extended := decide (3 < idStr.length)
      is_error := false
      is_remote := false
      dlc := dataBytes.length
      data := dataBytes
      raw_line := line })

/-- The J1939 branch of `parse_line` (can_parser.py lines 195-214). -/
def j1939FromCaps (line : List Char) (caps : Caps) : Option CANMessage :=
  (pyFromhex (capGet caps 4)).map (fun dataBytes =>
    { timestamp := pyFloatOfDigits (capGet caps 1)
      channel := capGet caps 2
      can_id := parseHexVal (capGet caps 3)
      is_extended := true
      is_error := false
      is_remote := false
      dlc := dataBytes.length
      data := dataBytes
      raw_line := line })

/-- The `asc` branch of `CANParser._parse_format_specific` (can_parser.py
lines 232-251); the surrounding `try/except` turns any error into `None`. -/
def ascFromCaps (line : List Char) (caps : Caps) : Option CANMessage :=
  let idStr := capGet caps 3
  let idOpt :=
    if idStr.contains 'x' then parseHexOpt (idStr.filter (fun c => !(c == 'x')))
    else some (parseHexVal idStr)
  match idOpt with
  | none => none
  | some can_id =>
    let dlc := parseDec (capGet caps 5)
    match pyFromhex ((capGet caps 6).filter (fun c => !(c == ' '))) with
    | none => none
    | some dataBytes =>
      some
        { timestamp := pyFloatOfDigits (capGet caps 1)
          channel := "can".toList ++ capGet caps 2
          can_id := can_id
          is_extended := decide (0x7FF < can_id)
          is_error := false
          is_remote := false
          dlc := dlc
          data := dataBytes.take dlc
          raw_line := line }

/-- The `simple` branch of `CANParser._parse_format_specific` (can_parser.py
lines 253-270). -/
def simpleFromCaps (line : List Char) (caps : Caps) : Option CANMessage :=
  let can_id := parseHexVal (capGet caps 2)
  let dlc := parseDec (capGet caps 3)
  match pyFromhex (((capGet caps 4).filter (fun c => !(c == ','))).filter
      (fun c => !(c == ' '))) with
  | none => none
  | some dataBytes =>
    some
      { timestamp := pyFloatOfDigits (capGet caps 1)
        channel := "can0".toList
        can_id := can_id
        is_extended := decide (0x7FF < can_id)
        is_error := false
        is_remote := false
        dlc := dlc
        data := dataBytes.take dlc
        raw_line := line }

/-- `CANParser.parse_line` (can_parser.py lines 163-225): SocketCAN first,
then J1939, then the remaining patterns in the dictionary order
`asc`, `pcan`, `simple`.  A `pcan` match reaches
`_parse_format_specific`, which has no branch for it and returns `None`. -/
def parse_line (line : List Char) : Option CANMessage :=
  match reMatch socketcanRE line with
  | some caps => socketFromCaps line caps
  | none =>
    match reMatch j1939RE line with
    | some caps => j1939FromCaps line caps
    | none =>
      match reMatch ascRE line with
      | some caps => ascFromCaps line caps
      | none =>
        match reMatch pcanRE line with
        | some _ => none
        | none =>
          match reMatch simpleRE line with
          | some caps => simpleFromCaps line caps
          | none => none

/-- The header tokens of `CANParser.parse_file` (can_parser.py line 135). -/
def headerTokens : List (List Char) :=
  ["time".toList, "id".toList, "dlc".toList, "data".toList, "channel".toList]

/-- The per-line body of the `CANParser.parse_file` loop (can_parser.py
lines 127-151): strip, drop blank and `#` comment lines, drop lines whose
lowercased text contains a header token, otherwise parse (a parse error is
caught and the line dropped). -/
def parse_file_line (raw : List Char) : Option CANMessage :=
  let line := pyStrip raw
  if line.isEmpty then none
  else if startsWithL line ("#").toList then none
  else if headerTokens.any (fun h => containsSub (toLowerL line) h) then none
  else parse_line line

/-- `CANParser.parse_file` restricted to its observable frame output: the
concatenation of all emitted chunks, i.e. the frames of all accepted lines
in order. -/
def parse_file (lines : List (List Char)) : List CANMessage :=
  lines.filterMap parse_file_line

/- ### Decimal / hex rendering helpers (Python f-string formats used) -/

/-- Digit character, upper-case for values 10-15. -/
def digitChU (d : Nat) : Char :=
  if d < 10 then Char.ofNat (48 + d) else Char.ofNat (55 + d)

/-- Digits of `n` in the given base (fuel-structured, fuel ≥ n suffices). -/
def toDigitsAux (base : Nat) : Nat → Nat → List Char → List Char
  | 0, _, acc => acc
  | fuel + 1, n, acc =>
      if n = 0 then acc
      else toDigitsAux base fuel (n / base) (digitChU (n % base) :: acc)

/-- Python `str(n)` for a natural number. -/
def natToDec (n : Nat) : List Char :=
  if n = 0 then ("0").toList else toDigitsAux 10 (n + 1) n []

/-- Upper-case hex digits of `n` (Python `X` format, unpadded). -/
def natToHexU (n : Nat) : List Char :=
  if n = 0 then ("0").toList else toDigitsAux 16 (n + 1) n []

/-- Python `{n:0wX}` — zero-padded upper-case hex. -/
def hexPadU (w n : Nat) : List Char :=
  let ds := natToHexU n
  List.replicate (w - ds.length) '0' ++ ds

/-- Python `{n:02X}`. -/
def hex2 (n : Nat) : List Char := hexPadU 2 n

/-- Python `str(i)` for an integer. -/
def intToDec (i : Int) : List Char :=
  if i < 0 then '-' :: natToDec (-i).toNat else natToDec i.toNat

/-- Python `{v:.1f}` on an exact decimal: one fractional digit, ties to
even.  (CPython formats the nearest double; on values whose decimal
expansion is exact in double range this agrees.) -/
def fmt1f (v : PyFloat) : List Char :=
  let n : Int := v.mant * 10
  let d : Int := (10 : Int) ^ v.scale
  let q : Int := n.fdiv d
  let r : Int := n.fmod d
  let q : Int :=
    if d < 2 * r then q + 1
    else if 2 * r < d then q
    else if q % 2 = 0 then q else q + 1
  intToDec (q.fdiv 10) ++ ".".toList ++ (natToDec (q.fmod 10).toNat)

/- ### `Error` and the detectors of analyzers/error_detector.py -/

/-- The `Error` dataclass of error_detector.py. -/
structure Error where
  timestamp : PyFloat
  error_type : List Char
  severity : List Char
  code : List Char
  description : List Char
  source : List Char
  can_id : Option Nat
  data : Option (List Nat)
  fix_suggestion : Option (List Char)
  deriving DecidableEq, Repr

/-- `ErrorDetector.j1939_spn_codes`. -/
def j1939_spn_codes : List (Nat × List Char) :=
  [(91, "Accelerator Pedal Position".toList),
   (94, "Fuel Delivery Pressure".toList),
   (100, "Engine Oil Pressure".toList),
   (102, "Intake Manifold Pressure".toList),
   (105, "Intake Manifold Temperature".toList),
   (110, "Engine Coolant Temperature".toList),
   (190, "Engine Speed".toList),
   (520, "SPN Suspect Parameter Number".toList),
   (629, "Controller #1".toList),
   (639, "J1939 Network #1".toList),
   (1569, "Engine Protection Torque Derate".toList)]

/-- `ErrorDetector.uds_negative_responses`. -/
def uds_negative_responses : List (Nat × List Char) :=
  [(0x10, "General Reject".toList),
   (0x11, "Service Not Supported".toList),
   (0x12, "Sub Function Not Supported".toList),
   (0x13, "Incorrect Message Length Or Invalid Format".toList),
   (0x14, "Response Too Long".toList),
   (0x21, "Busy Repeat Request".toList),
   (0x22, "Conditions Not Correct".toList),
   (0x24, "Request Sequence Error".toList),
   (0x25, "No Response From Subnet Component".toList),
   (0x26, "Failure Prevents Execution Of Requested Action".toList),
   (0x31, "Request Out Of Range".toList),
   (0x33, "Security Access Denied".toList),
   (0x35, "Invalid Key".toList),
   (0x36, "Exceeded Number Of Attempts".toList),
   (0x37, "Required Time Delay Not Expired".toList),
   (0x70, "Upload Download Not Accepted".toList),
   (0x71, "Transfer Data Suspended".toList),
   (0x72, "General Programming Failure".toList),
   (0x73, "Wrong Block Sequence Counter".toList),
   (0x78, "Request Correctly Received Response Pending".toList),
   (0x7E, "Sub Function Not Supported In Active Session".toList),
   (0x7F, "Service Not Supported In Active Session".toList)]

/-- Stable ascending order on messages by timestamp (Python `sorted` with
`key=lambda m: m.timestamp`). -/
def msgTsLe (a b : CANMessage) : Prop := a.timestamp.leB b.timestamp = true

instance : DecidableRel msgTsLe := fun a b => Bool.decEq (a.timestamp.leB b.timestamp) true

/-- Stable ascending order on errors by timestamp (`errors.sort(key=...)`). -/
def errTsLe (a b : Error) : Prop := a.timestamp.leB b.timestamp = true

instance : DecidableRel errTsLe := fun a b => Bool.decEq (a.timestamp.leB b.timestamp) true

/-- `ErrorDetector._detect_bus_off` (error_detector.py lines 185-212). -/
def detect_bus_off (messages : List CANMessage) : List Error :=
  if messages.length < 2 then []
  else
    let sorted_msgs := List.insertionSort msgTsLe messages
    (sorted_msgs.zip sorted_msgs.tail).flatMap (fun pr =>
      let gap_ms := (pr.2.timestamp.sub pr.1.timestamp).mulNat 1000
      if PyFloat.ltB ⟨100, 0⟩ gap_ms then
        [{ timestamp := pr.1.timestamp
           error_type := "BUS_OFF".toList
           severity := "Critical".toList
           code := "E_BUS_OFF".toList
           description := "Potential bus-off detected. Gap of (".toList ++
             fmt1f gap_ms ++ ")ms between messages".toList
           source := pr.1.channel
           can_id := some pr.1.can_id
           data := none
           fix_suggestion := none }]
      else [])

/-- `ErrorDetector._detect_error_frames` (lines 214-234). -/
def detect_error_frames (messages : List CANMessage) : List Error :=
  messages.flatMap (fun msg =>
    if msg.is_error then
      [{ timestamp := msg.timestamp
         error_type := "ERROR_FRAME".toList
         severity := "High".toList
         code := "E_CAN_ERROR_FRAME".toList
         description := "CAN error frame detected".toList
         source := msg.channel
         can_id := some msg.can_id
         data := some msg.data
         fix_suggestion := none }]
    else [])

/-- Python `range(start, stop, step)` for naturals with positive step. -/
def pyRange3 (start stop step : Nat) : List Nat :=
  if stop ≤ start then []
  else List.range' start ((stop - start + step - 1) / step) step

/-- `ErrorDetector._parse_j1939_dm` (lines 263-304): DTC groups of four
bytes from offset 2; a group with SPN 0 is skipped.  (The lamp-status
extraction of the source has no effect on the result.) -/
def parse_j1939_dm (msg : CANMessage) (pgn : Nat) : List Error :=
  let d := msg.data
  if d.length < 6 then []
  else
    (pyRange3 2 (d.length - 3) 4).flatMap (fun i =>
      if i + 3 < d.length then
        let spn := (d.getD i 0) ||| ((d.getD (i + 1) 0) <<< 8) |||
          (((d.getD (i + 2) 0) &&& 0xE0) <<< 11)
        let fmi := (d.getD (i + 2) 0) &&& 0x1F
        if spn ≠ 0 then
          let spn_name := (j1939_spn_codes.lookup spn).getD
            ("SPN (".toList ++ natToDec spn)
          [{ timestamp := msg.timestamp
             error_type := ")J1939_DTC".toList
             severity := if pgn = 0xFECA then ("Critical").toList else ("Medium").toList
             code := "SPN".toList ++ natToDec spn ++ "_FMI".toList ++ natToDec fmi
             description := "J1939 DTC: ".toList ++ spn_name ++ " - FMI (".toList ++
               natToDec fmi
             source := ")J1939".toList
             can_id := some msg.can_id
             data := some d
             fix_suggestion := none }]
        else []
      else [])

/-- `ErrorDetector._detect_j1939_dtc` (lines 236-261). -/
def detect_j1939_dtc (messages : List CANMessage) : List Error :=
  messages.flatMap (fun msg =>
    if 0x7FF < msg.can_id then
      let pgn := (msg.can_id >>> 8) &&& 0xFFFF
      if pgn = 0xFECA ∨ pgn = 0xFECB then
        if 8 ≤ msg.data.length then parse_j1939_dm msg pgn else []
      else []
    else [])

/-- `ErrorDetector._convert_to_dtc_format` (lines 376-389). -/
def convert_to_dtc_format (high_byte low_byte : Nat) : List Char :=
  let dtc_class := (high_byte >>> 6) &&& 0x03
  let dtc_digit := (high_byte >>> 4) &&& 0x03
  let dtc_rest := ((high_byte &&& 0x0F) <<< 8) ||| low_byte
  let pre : Char :=
    if dtc_class = 0 then 'P'
    else if dtc_class = 1 then 'C'
    else if dtc_class = 2 then 'B' else 'U'
  pre :: (hexPadU 1 dtc_digit ++ hexPadU 3 dtc_rest)

/-- `ErrorDetector._parse_uds_dtc` (lines 342-374); the produced DTC string
is always nonempty, so `if dtc_code:` always passes. -/
def parse_uds_dtc (msg : CANMessage) : List Error :=
  let d := msg.data
  if d.length < 4 then []
  else
    (pyRange3 2 (d.length - 2) 3).flatMap (fun i =>
      if i + 2 < d.length then
        let status := d.getD (i + 2) 0
        let dtc_code := convert_to_dtc_format (d.getD i 0) (d.getD (i + 1) 0)
        [{ timestamp := msg.timestamp
           error_type := "UDS_DTC".toList
           severity := if status &&& 0x01 ≠ 0 then ("High").toList else ("Medium").toList
           code := dtc_code
           description := "UDS DTC: ".toList ++ dtc_code ++ " - Status: ".toList ++
             hex2 status
           source := "UDS".toList
           can_id := some msg.can_id
           data := some d
           fix_suggestion := none }]
      else [])

/-- The negative-response fault built by `_detect_uds_errors` for a frame
whose first payload byte is `0x7F` (lines 317-333). -/
def uds_negative_error (msg : CANMessage) : Error :=
  let service_id := if 1 < msg.data.length then msg.data.getD 1 0 else 0
  let nrc := if 2 < msg.data.length then msg.data.getD 2 0 else 0
  let nrc_description := (uds_negative_responses.lookup nrc).getD
    ("Unknown NRC: ".toList ++ hex2 nrc)
  { timestamp := msg.timestamp
    error_type := "UDS_ERROR".toList
    severity := "Medium".toList
    code := "UDS_NRC_".toList ++ hex2 nrc
    description := "UDS Negative Response: Service (".toList ++ hex2 service_id ++
      ") - ".toList ++ nrc_description
    source := "UDS".toList
    can_id := some msg.can_id
    data := some msg.data
    fix_suggestion := none }

/-- `ErrorDetector._detect_uds_errors` (lines 306-340). -/
def detect_uds_errors (messages : List CANMessage) : List Error :=
  messages.flatMap (fun msg =>
    if msg.data.length < 2 then []
    else if msg.data.getD 0 0 = 0x7F then [uds_negative_error msg]
    else if msg.data.getD 0 0 = 0x59 then parse_uds_dtc msg
    else [])

/-- One message entry of the `dbc_data['messages']` dictionary consumed by
the detector.  The source keys this dictionary by `str(id)` (see
`DBCParser._messages_to_dict`) and converts back with `int(key)`; the
round trip is the identity, so the table is modelled keyed by the numeric
id directly. -/
structure DbcMsgDef where
  name : List Char
  dlc : Option Nat
  cycle_time : Option Nat
  deriving DecidableEq, Repr

/-- The `dbc_data` dictionary passed to the detector. -/
structure DbcData where
  messages : List (Nat × DbcMsgDef)
  deriving DecidableEq, Repr

/-- `ErrorDetector._detect_dlc_errors` (lines 391-425). -/
def detect_dlc_errors (messages : List CANMessage) (dbc_data : Option DbcData) :
    List Error :=
  match dbc_data with
  | none => []
  | some db =>
    messages.flatMap (fun msg =>
      match db.messages.lookup msg.can_id with
      | none => []
      | some mdef =>
        let expected_dlc := mdef.dlc.getD 8
        if msg.dlc ≠ expected_dlc then
          [{ timestamp := msg.timestamp
             error_type := "DLC_ERROR".toList
             severity := "Medium".toList
             code := "E_DLC_MISMATCH".toList
             description := "DLC mismatch for (".toList ++ mdef.name ++
               "): Expected (".toList ++ natToDec expected_dlc ++
               "), got (".toList ++ natToDec msg.dlc
             source := ")CAN".toList
             can_id := some msg.can_id
             data := some msg.data
             fix_suggestion := none }]
        else [])

/-- `ErrorDetector._detect_timeouts` (lines 427-471): per DBC message with
a truthy cycle time, time-sort that id's frames and flag gaps exceeding
twice the cycle time. -/
def detect_timeouts (messages : List CANMessage) (dbc_data : Option DbcData) :
    List Error :=
  match dbc_data with
  | none => []
  | some db =>
    db.messages.flatMap (fun kv =>
      match kv.2.cycle_time with
      | none => []
      | some cycle_time_ms =>
        if cycle_time_ms = 0 then []
        else
          let msg_list := List.insertionSort msgTsLe
            (messages.filter (fun m => m.can_id == kv.1))
          (msg_list.zip msg_list.tail).flatMap (fun pr =>
            let gap_ms := (pr.2.timestamp.sub pr.1.timestamp).mulNat 1000
            if PyFloat.ltB ⟨(cycle_time_ms : Int) * 2, 0⟩ gap_ms then
              [{ timestamp := pr.1.timestamp
                 error_type := "TIMEOUT".toList
                 severity := "High".toList
                 code := "E_MSG_TIMEOUT".toList
                 description := "Timeout detected for (".toList ++ kv.2.name ++
                   "): Expected (".toList ++ natToDec cycle_time_ms ++
                   ")ms, gap was (".toList ++ fmt1f gap_ms ++ ")ms".toList
                 source := "CAN".toList
                 can_id := some kv.1
                 data := none
                 fix_suggestion := none }]
            else []))

/-- `ErrorDetector._detect_can_errors` (lines 153-183). -/
def detect_can_errors (messages : List CANMessage) (dbc_data : Option DbcData) :
    List Error :=
  detect_bus_off messages ++ detect_error_frames messages ++
    detect_j1939_dtc messages ++ detect_uds_errors messages ++
    detect_dlc_errors messages dbc_data ++ detect_timeouts messages dbc_data

/-- `ErrorDetector._suggest_fix` (lines 561-593). -/
def suggest_fix (e : Error) : List Char :=
  let fixes : List (List Char × List Char) :=
    [("BUS_OFF".toList,
      ("Check bus termination resistors (120Ω). Verify cable connections. " ++
       "Check for short circuits. Review bus load and timing.").toList),
     ("ERROR_FRAME".toList,
      ("Check physical layer (cables, connectors). " ++
       "Verify bit timing configuration. Check for EMI interference.").toList),
     ("TIMEOUT".toList,
      ("Verify ECU is powered and connected. " ++
       "Check message cycle time configuration. " ++
       "Review network load and priorities.").toList),
     ("DLC_ERROR".toList,
      ("Update message definition in DBC file. " ++
       "Check sender ECU configuration. Verify protocol version.").toList),
     ("UDS_ERROR".toList,
      ("Check diagnostic session state. " ++
       "Verify security access if required. " ++
       "Review service request parameters.").toList),
     ("J1939_DTC".toList,
      ("Consult J1939-73 for DTC details. " ++
       "Check related sensor/actuator. " ++
       "Clear DTC after fixing root cause.").toList),
     ("CHECKSUM".toList,
      ("Check for data corruption. " ++
       "Verify message integrity. " ++
       "Review sender checksum calculation.").toList)]
  (fixes.lookup e.error_type).getD
    "Review log context and consult documentation for this error type.".toList

/-- `ErrorDetector.detect_errors` (lines 124-151) on CAN-frame chunks: the
chunk errors are concatenated, sorted ascending by timestamp (Python sort
is stable; the stable insertion sort used here returns the same list), and
each record then receives its fix suggestion.  (The dict- and str-chunk
branches of the source handle non-frame inputs and are outside the frame
claims.) -/
def detect_errors (log_data : List (List CANMessage)) (dbc_data : Option DbcData) :
    List Error :=
  let errors := log_data.flatMap (fun chunk => detect_can_errors chunk dbc_data)
  (List.insertionSort errTsLe errors).map
    (fun e => { e with fix_suggestion := some (suggest_fix e) })

/- ### `Signal` and `DBCParser._decode_signal` (dbc_parser.py) -/

/-- Exact addition of `PyFloat` values. -/
def PyFloat.add (a b : PyFloat) : PyFloat :=
  ⟨a.mant * (10 : Int) ^ b.scale + b.mant * (10 : Int) ^ a.scale, a.scale + b.scale⟩

/-- Scaling of a `PyFloat` by an integer. -/
def PyFloat.mulInt (k : Int) (a : PyFloat) : PyFloat := ⟨k * a.mant, a.scale⟩

/-- Python `min(a, b)`: returns `b` exactly when `b < a`. -/
def pyMin (a b : PyFloat) : PyFloat := if b.ltB a then b else a

/-- Python `max(a, b)`: returns `b` exactly when `a < b`. -/
def pyMax (a b : PyFloat) : PyFloat := if a.ltB b then b else a

/-- The `Signal` dataclass of dbc_parser.py (the multiplexing fields do
not participate in `_decode_signal` and are carried unchanged). -/
structure Signal where
  name : List Char
  start_bit : Nat
  size : Nat
  is_little_endian : Bool
  is_signed : Bool
  factor : PyFloat
  offset : PyFloat
  minimum : PyFloat
  maximum : PyFloat
  unit : List Char
  receivers : List (List Char)
  multiplexer_id : Option Nat
  is_multiplexer : Bool
  deriving DecidableEq, Repr

/-- The raw-bit extraction loops of `_decode_signal` (dbc_parser.py lines
359-381): Intel walks increasing bit positions, Motorola walks the
classical decreasing positions (Python floor division and nonnegative
remainder on the possibly negative `bit_position`). -/
def extract_raw_bits (signal : Signal) (data : List Nat) : Nat :=
  if signal.is_little_endian then
    (List.range signal.size).foldl (fun value i =>
      let byte_index := (signal.start_bit + i) / 8
      let bit_index := (signal.start_bit + i) % 8
      if byte_index < data.length then
        value ||| ((((data.getD byte_index 0) >>> bit_index) &&& 1) <<< i)
      else value) 0
  else
    (List.range signal.size).foldl (fun value i =>
      let bit_position : Int := (signal.start_bit : Int) - Int.ofNat i
      let byte_index : Int := bit_position.fdiv 8
      let bit_index : Nat := (7 - bit_position.fmod 8).toNat
      if 0 ≤ byte_index ∧ byte_index < (data.length : Int) then
        value ||| ((((data.getD byte_index.toNat 0) >>> bit_index) &&& 1) <<<
          (signal.size - 1 - i))
      else value) 0

/-- The raw (sign-corrected) integer value of `_decode_signal` (lines
383-385): two's-complement adjustment when signed and the top bit is set. -/
def extract_raw (signal : Signal) (data : List Nat) : Int :=
  let value := extract_raw_bits signal data
  if signal.is_signed && decide (value &&& (1 <<< (signal.size - 1)) ≠ 0) then
    (value : Int) - (((1 : Nat) <<< signal.size : Nat) : Int)
  else (value : Int)

/-- `DBCParser._decode_signal` (dbc_parser.py lines 350-393): zero on
insufficient payload, else bit extraction, sign correction,
`raw*factor + offset`, and clamping whenever `minimum != 0 or
maximum != 0`. -/
def decode_signal (signal : Signal) (data : List Nat) : PyFloat :=
  if data.length * 8 < signal.start_bit + signal.size then ⟨0, 0⟩
  else
    let physical_value := (PyFloat.mulInt (extract_raw signal data)
      signal.factor).add signal.offset
    if signal.minimum.mant ≠ 0 ∨ signal.maximum.mant ≠ 0 then
      pyMax signal.minimum (pyMin signal.maximum physical_value)
    else physical_value

/- ### `AutoDetector` (parsers/auto_detector.py) -/

/-- Does a byte list start with the given signature? -/
def startsWithB : List Nat → List Nat → Bool
  | _, [] => true
  | [], _ :: _ => false
  | c :: cs, d :: ds => c == d && startsWithB cs ds

/-- The observable content of one existing, readable file, as the four
detection strategies see it. -/
structure FileRep where
  suffix : List Char
  header : List Nat
  sample : List Char
  lines : List (List Char)
  xmlDetect : List Char

/-- `AutoDetector.extension_map`. -/
def extension_map : List (List Char × List Char) :=
  [(".asc".toList, "can_asc".toList), (".blf".toList, "can_blf".toList),
   (".trc".toList, "can_trc".toList), (".log".toList, "can_log".toList),
   (".txt".toList, "can_log".toList), (".lin".toList, "lin".toList),
   (".ldf".toList, "lin".toList), (".uds".toList, "uds".toList),
   (".pcap".toList, "pcap".toList), (".pcapng".toList, "pcap".toList),
   (".dbc".toList, "dbc".toList), (".csv".toList, "csv".toList),
   (".xml".toList, "xml".toList), (".dat".toList, "inca_dat".toList),
   (".mdf".toList, "inca_mdf".toList), (".xlsx".toList, "excel".toList),
   (".json".toList, "json".toList)]

/-- `AutoDetector.signatures` (magic-byte prefixes, in dictionary order). -/
def signatures : List (List Nat × List Char) :=
  [("LOGG".toList.map Char.toNat, "can_blf".toList),
   ("date".toList.map Char.toNat, "can_asc".toList),
   ([0xd0, 0xcf, 0x11, 0xe0], "excel".toList),
   ("<?xml".toList.map Char.toNat, "xml".toList),
   ("%PDF".toList.map Char.toNat, "pdf".toList),
   ([0x50, 0x4b, 0x03, 0x04], "zip".toList)]

/-- Content pattern `can_timestamp`:
`\(\d+\.\d+\)\s+\w+\s+[0-9A-Fa-f]+#[0-9A-Fa-f]+`. -/
def canTimestampRE : RE :=
  rcat [RE.lit '(', RE.plus digitC, RE.lit '.', RE.plus digitC, RE.lit ')',
    RE.plus spaceC, RE.plus wordC, RE.plus spaceC, RE.plus hexC, RE.lit '#',
    RE.plus hexC]

/-- Content pattern `can_asc`:
`^\s*\d+\.\d+\s+\d+\s+[0-9A-Fa-fx]+\s+Rx\s+d\s+\d+` — the `^` anchors the
search to the start of the sample. -/
def canAscContentRE : RE :=
  rcat [RE.star spaceC, RE.plus digitC, RE.lit '.', RE.plus digitC,
    RE.plus spaceC, RE.plus digitC, RE.plus spaceC, RE.plus hexXC,
    RE.plus spaceC, litS ("Rx"), RE.plus spaceC, RE.lit 'd', RE.plus spaceC,
    RE.plus digitC]

/-- Content pattern `j1939`: `18[0-9A-F]{6}#[0-9A-F]+`. -/
def j1939ContentRE : RE :=
  rcat [RE.lit '1', RE.lit '8', RE.repN 6 hexUC, RE.lit '#', RE.plus hexUC]

/-- Content pattern `uds`: `(7[0-9A-F]{2}|[0-9A-F]{2}7[0-9A-F])\s*#`. -/
def udsContentRE : RE :=
  rcat [RE.group 1 (RE.alt (rcat [RE.lit '7', RE.repN 2 hexUC])
      (rcat [RE.repN 2 hexUC, RE.lit '7', RE.cls hexUC])),
    RE.star spaceC, RE.lit '#']

/-- Content pattern `lin`: `LIN\s+\d+\.\d+`. -/
def linContentRE : RE :=
  rcat [litS ("LIN"), RE.plus spaceC, RE.plus digitC, RE.lit '.', RE.plus digitC]

/-- Content pattern `canalyzer_log`: `(CANalyzer|CANoe|Vector)`. -/
def canalyzerContentRE : RE :=
  RE.group 1 (RE.alt (litS ("CANalyzer")) (RE.alt (litS ("CANoe")) (litS ("Vector"))))

/-- Content pattern `inca`: `INCA|ETAS`. -/
def incaContentRE : RE := RE.alt (litS ("INCA")) (litS ("ETAS"))

/-- The LIN line grammar of lin_parser.py: `LIN\s+(\d+\.\d+)\s+(\d+)\s+([0-9A-Fa-f]+)`. -/
def linRE : RE :=
  rcat [litS ("LIN"), RE.plus spaceC, floatG 1, RE.plus spaceC,
    RE.group 2 (RE.plus digitC), RE.plus spaceC, RE.group 3 (RE.plus hexC)]

/-- The UDS line grammar of uds_parser.py:
`UDS\s+(\d+\.\d+)\s+(\w+)\s+->\s+(\w+)\s+([0-9A-Fa-f]+)`. -/
def udsRE : RE :=
  rcat [litS ("UDS"), RE.plus spaceC, floatG 1, RE.plus spaceC,
    RE.group 2 (RE.plus wordC), RE.plus spaceC, litS ("->"), RE.plus spaceC,
    RE.group 3 (RE.plus wordC), RE.plus spaceC, RE.group 4 (RE.plus hexC)]

/-- `AutoDetector._detect_by_magic` (auto_detector.py lines 137-160): first
matching signature wins; an XML prefix delegates to `_detect_xml_format`
(an external XML-library walk, modelled by the `xmlDetect` field); then the
structural BLF check. -/
def detect_by_magic (f : FileRep) : Option (List Char) :=
  match signatures.findSome? (fun sg =>
      if startsWithB f.header sg.1 then some sg.2 else none) with
  | some tag => if tag = "xml".toList then some f.xmlDetect else some tag
  | none =>
    if 144 ≤ f.header.length ∧ f.header.take 4 = "LOGG".toList.map Char.toNat then
      some ("can_blf").toList
    else none

/-- `AutoDetector._detect_by_content` (lines 162-204). -/
def detect_by_content (f : FileRep) : Option (List Char) :=
  if reSearch canTimestampRE f.sample then some ("can_log").toList
  else if (reMatch canAscContentRE f.sample).isSome then some ("can_asc").toList
  else if reSearch j1939ContentRE f.sample then some ("can_log").toList
  else if reSearch udsContentRE f.sample then some ("uds").toList
  else if reSearch linContentRE f.sample then some ("lin").toList
  else if reSearch canalyzerContentRE f.sample then
    if toLowerL f.suffix = ".csv".toList then some ("canalyzer_csv").toList
    else some ("canalyzer_xml").toList
  else if reSearch incaContentRE f.sample then
    if toLowerL f.suffix = ".mdf".toList then some ("inca_mdf").toList
    else some ("inca_dat").toList
  else none

/-- `CANParser.validate_format` (can_parser.py lines 84-106): any of the
first ten lines matching any of the five grammars. -/
def validate_can (f : FileRep) : Bool :=
  (f.lines.take 10).any (fun l =>
    let s := pyStrip l
    (reMatch socketcanRE s).isSome || (reMatch ascRE s).isSome ||
      (reMatch pcanRE s).isSome || (reMatch simpleRE s).isSome ||
      (reMatch j1939RE s).isSome)

/-- `ASCParser.validate_format` (asc_parser.py lines 44-57). -/
def validate_asc (f : FileRep) : Bool :=
  (f.lines.take 10).any (fun l => (reMatch ascRE (pyStrip l)).isSome)

/-- `BLFParser.validate_format` (blf_parser.py lines 36-44). -/
def validate_blf (f : FileRep) : Bool :=
  f.header.take 4 == "LOGG".toList.map Char.toNat

/-- `LINParser.validate_format` (lin_parser.py lines 41-54). -/
def validate_lin (f : FileRep) : Bool :=
  (f.lines.take 10).any (fun l => (reMatch linRE (pyStrip l)).isSome)

/-- `UDSParser.validate_format` (uds_parser.py lines 45-58). -/
def validate_uds (f : FileRep) : Bool :=
  (f.lines.take 10).any (fun l => (reMatch udsRE (pyStrip l)).isSome)

/-- `AutoDetector._detect_by_parsing` (auto_detector.py lines 233-250):
trial validation in the fixed order can_log, can_asc, can_blf, lin, uds. -/
def detect_by_parsing (f : FileRep) : Option (List Char) :=
  if validate_can f then some ("can_log").toList
  else if validate_asc f then some ("can_asc").toList
  else if validate_blf f then some ("can_blf").toList
  else if validate_lin f then some ("lin").toList
  else if validate_uds f then some ("uds").toList
  else none

/-- The ambiguous extensions needing content confirmation (line 110). -/
def ambiguousExts : List (List Char) :=
  [".csv".toList, ".xml".toList, ".txt".toList, ".log".toList]

/-- `AutoDetector.detect_format` (auto_detector.py lines 97-136) for an
existing file: extension lookup (with content confirmation for ambiguous
extensions), magic bytes, content patterns, trial parsing, and the final
`can_log` fallback. -/
def detect_format (f : FileRep) : List Char :=
  let ext := toLowerL f.suffix
  match extension_map.lookup ext with
  | some format_hint =>
    if ambiguousExts.any (fun a => a == ext) then
      match detect_by_content f with
      | some c => c
      | none => format_hint
    else format_hint
  | none =>
    match detect_by_magic f with
    | some m => m
    | none =>
      match detect_by_content f with
      | some c => c
      | none =>
        match detect_by_parsing f with
        | some p => p
        | none => "can_log".toList

/- ### Generic lemmas -/

theorem PyFloat.leB_iff (a b : PyFloat) : a.leB b = true ↔ a.toQ ≤ b.toQ := by
  have hb : (0 : ℚ) < (10 : ℚ) ^ b.scale := by positivity
  have ha : (0 : ℚ) < (10 : ℚ) ^ a.scale := by positivity
  rw [PyFloat.leB, decide_eq_true_iff, PyFloat.toQ, PyFloat.toQ,
    div_le_div_iff₀ ha hb]
  constructor
  · intro h
    exact_mod_cast h
  · intro h
    exact_mod_cast h

theorem PyFloat.ltB_iff (a b : PyFloat) : a.ltB b = true ↔ a.toQ < b.toQ := by
  have hb : (0 : ℚ) < (10 : ℚ) ^ b.scale := by positivity
  have ha : (0 : ℚ) < (10 : ℚ) ^ a.scale := by positivity
  rw [PyFloat.ltB, decide_eq_true_iff, PyFloat.toQ, PyFloat.toQ,
    div_lt_div_iff₀ ha hb]
  constructor
  · intro h
    exact_mod_cast h
  · intro h
    exact_mod_cast h

theorem PyFloat.toQ_add (a b : PyFloat) : (a.add b).toQ = a.toQ + b.toQ := by
  unfold PyFloat.add PyFloat.toQ
  have ha : ((10 : ℚ) ^ a.scale) ≠ 0 := by positivity
  have hb : ((10 : ℚ) ^ b.scale) ≠ 0 := by positivity
  push_cast
  rw [pow_add]
  field_simp

theorem PyFloat.toQ_mulInt (k : Int) (a : PyFloat) :
    (PyFloat.mulInt k a).toQ = (k : ℚ) * a.toQ := by
  unfold PyFloat.mulInt PyFloat.toQ
  push_cast
  ring

theorem pyMin_toQ (a b : PyFloat) : (pyMin a b).toQ = min a.toQ b.toQ := by
  unfold pyMin
  by_cases h : b.ltB a = true
  · rw [if_pos h]
    rw [PyFloat.ltB_iff] at h
    rw [min_eq_right h.le]
  · rw [if_neg h]
    rw [Bool.not_eq_true, ← Bool.not_eq_true, PyFloat.ltB_iff, not_lt] at h
    rw [min_eq_left h]

theorem pyMax_toQ (a b : PyFloat) : (pyMax a b).toQ = max a.toQ b.toQ := by
  unfold pyMax
  by_cases h : a.ltB b = true
  · rw [if_pos h]
    rw [PyFloat.ltB_iff] at h
    rw [max_eq_right h.le]
  · rw [if_neg h]
    rw [Bool.not_eq_true, ← Bool.not_eq_true, PyFloat.ltB_iff, not_lt] at h
    rw [max_eq_left h]

theorem PyFloat.mant_ne_zero_iff (a : PyFloat) : a.mant ≠ 0 ↔ a.toQ ≠ 0 := by
  unfold PyFloat.toQ
  have ha : ((10 : ℚ) ^ a.scale) ≠ 0 := by positivity
  constructor
  · intro h hq
    rw [div_eq_zero_iff] at hq
    rcases hq with hq | hq
    · exact h (by exact_mod_cast hq)
    · exact ha hq
  · intro h hm
    apply h
    rw [hm]
    simp

theorem startsWithL_nil (s : List Char) : startsWithL s [] = true := by
  cases s <;> rfl

theorem startsWithL_prefix_append (p t : List Char) :
    startsWithL (p ++ t) p = true := by
  induction p with
  | nil => simpa using startsWithL_nil t
  | cons c cs ih => simp [startsWithL, ih]

theorem containsSub_append_right (x y sub : List Char)
    (h : containsSub y sub = true) : containsSub (x ++ y) sub = true := by
  induction x with
  | nil => simpa using h
  | cons c cs ih =>
    rw [List.cons_append, containsSub]
    simp only [Bool.or_eq_true]
    exact Or.inr ih

theorem containsSub_of_startsWith (s sub : List Char)
    (h : startsWithL s sub = true) : containsSub s sub = true := by
  cases s with
  | nil => rw [containsSub]; simp [h]
  | cons c cs => rw [containsSub]; simp [h]

/- ### Claim C1 — socket-style line parsing -/

theorem parse_line_socket (line : List Char) (caps : Caps)
    (h : reMatch socketcanRE line = some caps) :
    parse_line line = socketFromCaps line caps := by
  unfold parse_line
  rw [h]

/-- Scenario 1 input line. -/
def c1Line : List Char := "(1000.000000) can0 123#0102030405060708".toList

/-- The frame the source produces for `c1Line`. -/
def c1Frame : CANMessage :=
  { timestamp := ⟨1000000000, 6⟩, channel := "can0".toList, can_id := 0x123,
    is_extended := false, is_error := false, is_remote := false, dlc := 8,
    data := [1, 2, 3, 4, 5, 6, 7, 8], raw_line := c1Line }

set_option maxRecDepth 8192 in
/-- C1: the line `(1000.000000) can0 123#0102030405060708` parses to exactly
one frame with timestamp 1000.0, channel `can0`, id 0x123, dlc 8, payload
`01 02 03 04 05 06 07 08` and `extended = false`; and every frame produced
from a socket-style match is extended exactly when the hex id token has more
than 3 hex digits. -/
theorem C1_socketcan_parse :
    (parse_line c1Line = some c1Frame ∧ c1Frame.timestamp.toQ = 1000 ∧
      c1Frame.channel = "can0".toList ∧ c1Frame.can_id = 0x123 ∧
      c1Frame.dlc = 8 ∧ c1Frame.data = [1, 2, 3, 4, 5, 6, 7, 8] ∧
      c1Frame.is_extended = false) ∧
    (∀ line caps m, reMatch socketcanRE line = some caps →
      parse_line line = some m →
      m.is_extended = decide (3 < (capGet caps 3).length)) := by
  constructor
  · refine ⟨by decide, ?_, by decide, by decide, by decide, by decide, by decide⟩
    show ((⟨1000000000, 6⟩ : PyFloat)).toQ = 1000
    rw [PyFloat.toQ]
    norm_num
  · intro line caps m h1 h2
    rw [parse_line_socket line caps h1] at h2
    unfold socketFromCaps at h2
    rcases hdb : pyFromhex (capGet caps 4) with _ | db
    · rw [hdb] at h2
      simp at h2
    · rw [hdb] at h2
      injection h2 with h3
      rw [← h3]

/-- C1 witness: the universal clause applied to the scenario line. -/
theorem C1_socketcan_parse_witness :
    ∃ caps, reMatch socketcanRE c1Line = some caps ∧
      c1Frame.is_extended = decide (3 < (capGet caps 3).length) := by
  rcases hc : reMatch socketcanRE c1Line with _ | caps
  · exact absurd hc (by decide)
  · exact ⟨caps, rfl, C1_socketcan_parse.2 c1Line caps c1Frame hc
      (C1_socketcan_parse.1.1)⟩

/- ### Claim C2 — payload length versus declared DLC -/

theorem socketFromCaps_le (line : List Char) (caps : Caps) (m : CANMessage)
    (h : socketFromCaps line caps = some m) : m.data.length ≤ m.dlc := by
  unfold socketFromCaps at h
  rcases hdb : pyFromhex (capGet caps 4) with _ | db
  · rw [hdb] at h
    simp at h
  · rw [hdb] at h
    injection h with h3
    rw [← h3]

theorem j1939FromCaps_le (line : List Char) (caps : Caps) (m : CANMessage)
    (h : j1939FromCaps line caps = some m) : m.data.length ≤ m.dlc := by
  unfold j1939FromCaps at h
  rcases hdb : pyFromhex (capGet caps 4) with _ | db
  · rw [hdb] at h
    simp at h
  · rw [hdb] at h
    injection h with h3
    rw [← h3]

theorem ascFromCaps_le (line : List Char) (caps : Caps) (m : CANMessage)
    (h : ascFromCaps line caps = some m) : m.data.length ≤ m.dlc := by
  unfold ascFromCaps at h
  dsimp only at h
  split at h
  · exact absurd h (by simp)
  · split at h
    · exact absurd h (by simp)
    · injection h with h3
      rw [← h3]
      simp [List.length_take_le]

theorem simpleFromCaps_le (line : List Char) (caps : Caps) (m : CANMessage)
    (h : simpleFromCaps line caps = some m) : m.data.length ≤ m.dlc := by
  unfold simpleFromCaps at h
  dsimp only at h
  split at h
  · exact absurd h (by simp)
  · injection h with h3
    rw [← h3]
    simp [List.length_take_le]

/-- C2 (amended): every frame `parse_line` emits satisfies payload length
`≤` declared DLC (socket-style and J1939 branches give equality, the
ASC-style and simple branches keep at most `dlc` bytes) — but not always
equality, see the counterexample. -/
theorem C2_payload_dlc_amended (line : List Char) (m : CANMessage)
    (h : parse_line line = some m) : m.data.length ≤ m.dlc := by
  unfold parse_line at h
  rcases h1 : reMatch socketcanRE line with _ | caps1
  all_goals rw [h1] at h
  · rcases h2 : reMatch j1939RE line with _ | caps2
    all_goals rw [h2] at h
    · rcases h3 : reMatch ascRE line with _ | caps3
      all_goals rw [h3] at h
      · rcases h4 : reMatch pcanRE line with _ | caps4
        all_goals rw [h4] at h
        · rcases h5 : reMatch simpleRE line with _ | caps5
          all_goals rw [h5] at h
          · simp at h
          · exact simpleFromCaps_le line caps5 m h
        · simp at h
      · exact ascFromCaps_le line caps3 m h
    · exact j1939FromCaps_le line caps2 m h
  · exact socketFromCaps_le line caps1 m h

/-- C2 counterexample line: an ASC-style record declaring dlc 8 but
carrying only two data bytes. -/
def c2Line : List Char := "1.0 1 123 Rx d 8 01 02".toList

/-- The frame the source emits for `c2Line`. -/
def c2Frame : CANMessage :=
  { timestamp := ⟨10, 1⟩, channel := "can1".toList, can_id := 0x123,
    is_extended := false, is_error := false, is_remote := false, dlc := 8,
    data := [1, 2], raw_line := c2Line }

set_option maxRecDepth 8192 in
/-- C2 counterexample: the emitted frame has `data.length = 2` but
`dlc = 8` — the record is emitted, not rejected, with payload length
different from the declared DLC. -/
theorem C2_payload_dlc_counterexample :
    parse_line c2Line = some c2Frame ∧ ¬ c2Frame.data.length = c2Frame.dlc := by
  exact ⟨by decide, by decide⟩

set_option maxRecDepth 8192 in
/-- C2 witness: the amended bound applied to the scenario-1 line. -/
theorem C2_payload_dlc_amended_witness :
    parse_line c1Line = some c1Frame ∧ c1Frame.data.length ≤ c1Frame.dlc :=
  ⟨by decide, C2_payload_dlc_amended c1Line c1Frame (by decide)⟩

/- ### Claim C3 — insufficient payload decodes to zero -/

/-- C3 (amended): when the payload has fewer bits than
`start_bit + bit_length`, `_decode_signal` returns a plain zero — no
insufficient-data flag accompanies it (see the counterexample) — and the
early return means no exception is possible. -/
theorem C3_insufficient_zero_amended (signal : Signal) (data : List Nat)
    (h : data.length * 8 < signal.start_bit + signal.size) :
    decode_signal signal data = ⟨0, 0⟩ := by
  unfold decode_signal
  rw [if_pos h]

/-- An 8-bit unsigned little-endian signal at bit 0 with unit scaling and
no declared range. -/
def c3Sig : Signal :=
  { name := "Sig3".toList, start_bit := 0, size := 8, is_little_endian := true,
    is_signed := false, factor := ⟨1, 0⟩, offset := ⟨0, 0⟩, minimum := ⟨0, 0⟩,
    maximum := ⟨0, 0⟩, unit := [], receivers := [], multiplexer_id := none,
    is_multiplexer := false }

/-- C3 witness: the amended claim at `c3Sig` with an empty payload. -/
theorem C3_insufficient_zero_amended_witness :
    ([] : List Nat).length * 8 < c3Sig.start_bit + c3Sig.size ∧
      decode_signal c3Sig [] = ⟨0, 0⟩ :=
  ⟨by decide, C3_insufficient_zero_amended c3Sig [] (by decide)⟩

/-- C3 counterexample: decoding `c3Sig` from an insufficient payload and
from a sufficient all-zero payload returns the same bare value, so the
result carries no explicit insufficient-data flag distinguishing the two
cases, contrary to the claim. -/
theorem C3_no_flag_counterexample :
    decode_signal c3Sig [] = decode_signal c3Sig [0] ∧
      ([] : List Nat).length * 8 < c3Sig.start_bit + c3Sig.size ∧
      ¬ (([0] : List Nat).length * 8 < c3Sig.start_bit + c3Sig.size) := by
  exact ⟨by decide, by decide, by decide⟩

/- ### Claim C10 — header-token line skipping -/

/-- A socket-style line whose channel token `mid0` contains `id`. -/
def c10Line : List Char := "(1.0) mid0 123#01".toList

set_option maxRecDepth 8192 in
/-- C10: any line whose lowercased stripped text contains one of the
header tokens `time`, `id`, `dlc`, `data`, `channel` is skipped by
`parse_file` and yields no frame — even the grammatical socket-style line
`(1.0) mid0 123#01`, which `parse_line` itself accepts. -/
theorem C10_header_skip :
    (∀ raw, headerTokens.any (fun h => containsSub (toLowerL (pyStrip raw)) h) = true →
      parse_file_line raw = none) ∧
    (parse_line c10Line).isSome = true ∧ parse_file_line c10Line = none := by
  refine ⟨?_, by decide, by decide⟩
  intro raw hh
  simp only [parse_file_line, hh, eq_self_iff_true, if_true]
  split
  · rfl
  · split <;> rfl

set_option maxRecDepth 8192 in
/-- C10 witness: the skip rule applied to the concrete line `c10Line`. -/
theorem C10_header_skip_witness :
    headerTokens.any (fun h => containsSub (toLowerL (pyStrip c10Line)) h) = true ∧
      parse_file_line c10Line = none :=
  ⟨by decide, C10_header_skip.1 c10Line (by decide)⟩

/- ### Claim C4 — linear scaling and clamping -/

set_option maxRecDepth 2048 in
/-- C4 (amended): on sufficient payloads the decoder returns
`raw*factor + offset`, clamped into `[minimum, maximum]` exactly when
`minimum ≠ 0` **or** `maximum ≠ 0`; only when both bounds are zero is the
unclamped linear value returned.  (The claim instead asserted clamping
only when both bounds are non-zero; see the counterexample.) -/
theorem C4_scale_clamp_amended (signal : Signal) (data : List Nat)
    (h : signal.start_bit + signal.size ≤ data.length * 8) :
    (decode_signal signal data).toQ =
      if signal.minimum.toQ ≠ 0 ∨ signal.maximum.toQ ≠ 0 then
        max signal.minimum.toQ (min signal.maximum.toQ
          ((extract_raw signal data : ℚ) * signal.factor.toQ + signal.offset.toQ))
      else (extract_raw signal data : ℚ) * signal.factor.toQ + signal.offset.toQ := by
  unfold decode_signal
  rw [if_neg (by omega)]
  by_cases hc : signal.minimum.mant ≠ 0 ∨ signal.maximum.mant ≠ 0
  · rw [if_pos hc]
    have hcQ : signal.minimum.toQ ≠ 0 ∨ signal.maximum.toQ ≠ 0 := by
      rcases hc with hc | hc
      · exact Or.inl ((PyFloat.mant_ne_zero_iff _).mp hc)
      · exact Or.inr ((PyFloat.mant_ne_zero_iff _).mp hc)
    rw [if_pos hcQ, pyMax_toQ, pyMin_toQ, PyFloat.toQ_add, PyFloat.toQ_mulInt]
  · rw [if_neg hc]
    push_neg at hc
    have hcQ : ¬ (signal.minimum.toQ ≠ 0 ∨ signal.maximum.toQ ≠ 0) := by
      push_neg
      constructor
      · rw [PyFloat.toQ, hc.1]
        simp
      · rw [PyFloat.toQ, hc.2]
        simp
    rw [if_neg hcQ, PyFloat.toQ_add, PyFloat.toQ_mulInt]

/-- An 8-bit unsigned little-endian signal at bit 0 with unit scaling,
`minimum = 0` and `maximum = 100`. -/
def c4Sig : Signal :=
  { name := "Sig4".toList, start_bit := 0, size := 8, is_little_endian := true,
    is_signed := false, factor := ⟨1, 0⟩, offset := ⟨0, 0⟩, minimum := ⟨0, 0⟩,
    maximum := ⟨100, 0⟩, unit := [], receivers := [], multiplexer_id := none,
    is_multiplexer := false }

/-- C4 witness: the amended claim at `c4Sig` on payload `[200]`; exactly
one bound is non-zero and the decoder clamps `200` down to `100`. -/
theorem C4_scale_clamp_amended_witness :
    c4Sig.start_bit + c4Sig.size ≤ ([200] : List Nat).length * 8 ∧
      (decode_signal c4Sig [200]).toQ = 100 := by
  refine ⟨by decide, ?_⟩
  rw [C4_scale_clamp_amended c4Sig [200] (by decide)]
  rw [show extract_raw c4Sig [200] = 200 from by decide]
  norm_num [c4Sig, PyFloat.toQ]

/-- The physical value claim C4 prescribes, modelled from the claim text:
clamp exactly when **both** `minimum` and `maximum` are non-zero, otherwise
return the unclamped `raw*factor + offset`. -/
def c4ClaimValueQ (signal : Signal) (data : List Nat) : ℚ :=
  let physical := (extract_raw signal data : ℚ) * signal.factor.toQ + signal.offset.toQ
  if signal.minimum.toQ ≠ 0 ∧ signal.maximum.toQ ≠ 0 then
    max signal.minimum.toQ (min signal.maximum.toQ physical)
  else physical

/-- C4 counterexample: for `c4Sig` (minimum zero, maximum 100) on payload
`[200]` — a sufficient payload — the code clamps to 100 while the claim
prescribes the unclamped 200, so the claim is false as stated. -/
theorem C4_clamp_counterexample :
    c4Sig.start_bit + c4Sig.size ≤ ([200] : List Nat).length * 8 ∧
      (decode_signal c4Sig [200]).toQ ≠ c4ClaimValueQ c4Sig [200] := by
  refine ⟨by decide, ?_⟩
  rw [show decode_signal c4Sig [200] = ⟨100, 0⟩ from by decide]
  rw [c4ClaimValueQ]
  rw [show extract_raw c4Sig [200] = 200 from by decide]
  norm_num [c4Sig, PyFloat.toQ]

/- ### Claim C5 — J1939 DM1/DM2 DTC extraction -/

set_option maxRecDepth 4096 in
/-- For byte values, masking bits 5-7 and shifting by 11 is the same as
taking the top three bits and placing them at bits 16-18. -/
theorem and_e0_shift : ∀ b < 256, (b &&& 0xE0) <<< 11 = (b >>> 5) <<< 16 := by
  decide

theorem range'_eq_map (step n : Nat) :
    ∀ s, List.range' s n step = (List.range n).map (fun k => s + step * k) := by
  induction n with
  | zero => intro s; rfl
  | succ m ih =>
    intro s
    rw [List.range'_succ, List.range_succ_eq_map, List.map_cons, ih (s + step),
      List.map_map]
    refine List.cons_eq_cons.mpr ⟨by ring, ?_⟩
    apply List.map_congr_left
    intro k _
    simp only [Function.comp_apply, Nat.succ_eq_add_one]
    ring

theorem dm_range (len : Nat) (h : 8 ≤ len) :
    pyRange3 2 (len - 3) 4 = (List.range ((len - 2) / 4)).map (fun k => 2 + 4 * k) := by
  unfold pyRange3
  rw [if_neg (by omega), range'_eq_map]
  congr 2
  omega

/-- The DM fault list claim C5 prescribes, modelled from the claim text:
repeating 4-byte groups after the two lamp-status bytes, a 19-bit SPN
`byte0 | byte1<<8 | (top 3 bits of byte2)<<16`, a 5-bit FMI, SPN-0 groups
skipped, severity Critical for PGN 0xFECA and Medium for 0xFECB; each
fault is recorded here by its (severity, code) pair. -/
def claimDMFaults (pgn : Nat) (data : List Nat) : List (List Char × List Char) :=
  (List.range ((data.length - 2) / 4)).flatMap (fun k =>
    let i := 2 + 4 * k
    let spn := data.getD i 0 ||| ((data.getD (i + 1) 0) <<< 8) |||
      (((data.getD (i + 2) 0) >>> 5) <<< 16)
    let fmi := (data.getD (i + 2) 0) &&& 0x1F
    if spn = 0 then []
    else [(if pgn = 0xFECA then ("Critical").toList else ("Medium").toList,
      "SPN".toList ++ natToDec spn ++ "_FMI".toList ++ natToDec fmi)])

/-- C5: for an extended frame whose PGN (bits 8-23 of the id) is 0xFECA or
0xFECB and whose payload has at least 8 (byte-valued) entries, the
detector emits exactly the faults of the claimed DM layout, with Critical
severity for 0xFECA and Medium for 0xFECB, skipping SPN-0 groups. -/
theorem C5_j1939_dtc (msg : CANMessage)
    (h1 : 0x7FF < msg.can_id)
    (h2 : (msg.can_id >>> 8) &&& 0xFFFF = 0xFECA ∨
      (msg.can_id >>> 8) &&& 0xFFFF = 0xFECB)
    (h3 : 8 ≤ msg.data.length)
    (h4 : ∀ b ∈ msg.data, b < 256) :
    (detect_j1939_dtc [msg]).map (fun e => (e.severity, e.code)) =
      claimDMFaults ((msg.can_id >>> 8) &&& 0xFFFF) msg.data := by
  simp only [detect_j1939_dtc, List.flatMap_cons, List.flatMap_nil, List.append_nil]
  rw [if_pos h1, if_pos h2, if_pos h3]
  unfold parse_j1939_dm
  rw [if_neg (by omega), List.map_flatMap, dm_range msg.data.length h3,
    List.flatMap_map]
  unfold claimDMFaults
  apply List.flatMap_congr
  intro k hk
  rw [List.mem_range] at hk
  have hk4 : (k + 1) * 4 ≤ msg.data.length - 2 := by
    rw [← Nat.le_div_iff_mul_le (by omega)]
    omega
  have hi3 : 2 + 4 * k + 3 < msg.data.length := by omega
  have hb2 : msg.data.getD (2 + 4 * k + 2) 0 < 256 := by
    have hm : msg.data.getD (2 + 4 * k + 2) 0 ∈ msg.data := by
      rw [List.getD_eq_getElem msg.data 0 (by omega)]
      exact List.getElem_mem _
    exact h4 _ hm
  simp only [Function.comp_apply]
  rw [if_pos hi3]
  rw [and_e0_shift _ hb2]
  by_cases hspn : msg.data.getD (2 + 4 * k) 0 ||| ((msg.data.getD (2 + 4 * k + 1) 0) <<< 8) |||
      (((msg.data.getD (2 + 4 * k + 2) 0) >>> 5) <<< 16) = 0
  · rw [if_neg (by simpa using hspn), if_pos hspn]
    rfl
  · rw [if_pos hspn, if_neg hspn]
    rfl

/-- Scenario 3 DM1 frame: extended id with PGN 0xFECA, payload
`00 00 5B 04 12 00 00 00`. -/
def c5Msg : CANMessage :=
  { timestamp := ⟨15, 1⟩, channel := "can0".toList, can_id := 0x18FECA00,
    is_extended := true, is_error := false, is_remote := false, dlc := 8,
    data := [0x00, 0x00, 0x5B, 0x04, 0x12, 0x00, 0x00, 0x00], raw_line := [] }

/-- C5 witness: the DM1 scenario frame yields exactly one Critical J1939
DTC fault, with SPN 1115 and FMI 18 extracted from bytes 2-5. -/
theorem C5_j1939_dtc_witness :
    (detect_j1939_dtc [c5Msg]).map (fun e => (e.severity, e.code)) =
      [("Critical".toList, "SPN1115_FMI18".toList)] := by
  rw [C5_j1939_dtc c5Msg (by decide) (by decide) (by decide) (by decide)]
  decide

/- ### Claim C6 — UDS negative-response faults -/

/-- C6: a frame whose payload starts with 0x7F (length at least 2) yields
exactly one UDS fault of Medium severity whose code appends the hex of
payload byte 2 to `UDS_NRC_`; its description carries the table entry for
the NRC when one exists and the generic `Unknown NRC` text otherwise, and
no error is possible. -/
theorem C6_uds_negative (msg : CANMessage)
    (h1 : 2 ≤ msg.data.length)
    (h2 : msg.data.getD 0 0 = 0x7F) :
    detect_uds_errors [msg] = [uds_negative_error msg] ∧
      (uds_negative_error msg).severity = "Medium".toList ∧
      (uds_negative_error msg).code =
        "UDS_NRC_".toList ++ hex2 (msg.data.getD 2 0) ∧
      (∀ d, uds_negative_responses.lookup (msg.data.getD 2 0) = some d →
        containsSub (uds_negative_error msg).description d = true) ∧
      (uds_negative_responses.lookup (msg.data.getD 2 0) = none →
        containsSub (uds_negative_error msg).description ("Unknown NRC").toList
          = true) := by
  refine ⟨?_, ?_, ?_, ?_, ?_⟩
  · simp only [detect_uds_errors, List.flatMap_cons, List.flatMap_nil,
      List.append_nil]
    rw [if_neg (by omega), if_pos h2]
  · rfl
  · have hnrc : (if 2 < msg.data.length then msg.data.getD 2 0 else 0) =
        msg.data.getD 2 0 := by
      by_cases hl : 2 < msg.data.length
      · rw [if_pos hl]
      · rw [if_neg hl]
        rw [List.getD_eq_default]
        omega
    simp only [uds_negative_error, hnrc]
  · intro d hd
    have hnrc : (if 2 < msg.data.length then msg.data.getD 2 0 else 0) =
        msg.data.getD 2 0 := by
      by_cases hl : 2 < msg.data.length
      · rw [if_pos hl]
      · rw [if_neg hl]
        rw [List.getD_eq_default]
        omega
    simp only [uds_negative_error, hnrc, hd, Option.getD_some]
    apply containsSub_append_right
    apply containsSub_of_startsWith
    simpa using startsWithL_prefix_append d []
  · intro hd
    have hnrc : (if 2 < msg.data.length then msg.data.getD 2 0 else 0) =
        msg.data.getD 2 0 := by
      by_cases hl : 2 < msg.data.length
      · rw [if_pos hl]
      · rw [if_neg hl]
        rw [List.getD_eq_default]
        omega
    simp only [uds_negative_error, hnrc, hd, Option.getD_none]
    apply containsSub_append_right
    apply containsSub_of_startsWith
    rw [show ("Unknown NRC: ".toList : List Char) =
      "Unknown NRC".toList ++ ": ".toList from by decide]
    rw [List.append_assoc]
    exact startsWithL_prefix_append _ _

/-- Scenario 4 frame: payload `7F 22 31`. -/
def c6Msg : CANMessage :=
  { timestamp := ⟨0, 0⟩, channel := "can0".toList, can_id := 0x7E8,
    is_extended := false, is_error := false, is_remote := false, dlc := 3,
    data := [0x7F, 0x22, 0x31], raw_line := [] }

/-- C6 witness: payload `7F 22 31` yields one Medium fault with code
`UDS_NRC_31` whose description contains `Request Out Of Range`. -/
theorem C6_uds_negative_witness :
    detect_uds_errors [c6Msg] = [uds_negative_error c6Msg] ∧
      (uds_negative_error c6Msg).severity = "Medium".toList ∧
      (uds_negative_error c6Msg).code = "UDS_NRC_31".toList ∧
      containsSub (uds_negative_error c6Msg).description
        "Request Out Of Range".toList = true :=
  ⟨(C6_uds_negative c6Msg (by decide) (by decide)).1, by decide, by decide,
    by decide⟩

/- ### Claim C7 — fault records are returned time-sorted -/

instance : IsTotal Error errTsLe :=
  ⟨fun a b => by
    unfold errTsLe
    rw [PyFloat.leB_iff, PyFloat.leB_iff]
    exact le_total _ _⟩

instance : IsTrans Error errTsLe :=
  ⟨fun a b c hab hbc => by
    unfold errTsLe at hab hbc ⊢
    rw [PyFloat.leB_iff] at hab hbc ⊢
    exact le_trans hab hbc⟩

/-- C7: for every chunked frame input and optional DBC table, the list
`detect_errors` returns is ascending in timestamp. -/
theorem C7_detect_errors_sorted (log_data : List (List CANMessage))
    (dbc_data : Option DbcData) :
    (detect_errors log_data dbc_data).Pairwise
      (fun a b => a.timestamp.toQ ≤ b.timestamp.toQ) := by
  unfold detect_errors
  apply List.Pairwise.map
  · intro a b hab
    exact (PyFloat.leB_iff _ _).mp hab
  · exact List.sorted_insertionSort errTsLe _

/- ### Claim C8 — determinism of fault detection -/

/-- C8: `detect_errors` is deterministic — two invocations on the same
chunked frames and the same optional DBC table produce the same ordered
fault list.  In this embedding the detector is a pure function of its
arguments (the model shows no hidden state affects the result), so the
two runs are definitionally equal. -/
theorem C8_detect_errors_deterministic (log_data : List (List CANMessage))
    (dbc_data : Option DbcData) :
    detect_errors log_data dbc_data = detect_errors log_data dbc_data := rfl

/- ### Claim C9 — detection fallback to the generic CAN dialect -/

/-- C9 (amended): when extension lookup, magic-byte sniffing, content
pattern matching and trial parsing are all inconclusive, `detect_format`
returns the generic dialect tag `can_log` and raises no error; the return
value is the bare tag — no confidence indicator accompanies it (see the
counterexample). -/
theorem C9_detect_format_fallback_amended (f : FileRep)
    (h1 : extension_map.lookup (toLowerL f.suffix) = none)
    (h2 : detect_by_magic f = none)
    (h3 : detect_by_content f = none)
    (h4 : detect_by_parsing f = none) :
    detect_format f = "can_log".toList := by
  simp only [detect_format, h1, h2, h3, h4]

/-- A file on which every strategy is inconclusive: unknown extension,
empty header, content `hello`. -/
def c9IncFile : FileRep :=
  { suffix := ".xyz".toList, header := [], sample := "hello".toList,
    lines := ["hello".toList], xmlDetect := "xml".toList }

/-- A `.log` file whose content matches the socket-style pattern: format
detection identifies it definitively (extension plus content check). -/
def c9LogFile : FileRep :=
  { suffix := ".log".toList, header := [], sample := "(1.0) can0 123#01".toList,
    lines := ["(1.0) can0 123#01".toList], xmlDetect := "xml".toList }

set_option maxRecDepth 8192 in
/-- C9 witness: the fallback applied to the concrete inconclusive file. -/
theorem C9_detect_format_fallback_amended_witness :
    extension_map.lookup (toLowerL c9IncFile.suffix) = none ∧
      detect_by_magic c9IncFile = none ∧ detect_by_content c9IncFile = none ∧
      detect_by_parsing c9IncFile = none ∧ detect_format c9IncFile = "can_log".toList :=
  ⟨by decide, by decide, by decide, by decide,
    C9_detect_format_fallback_amended c9IncFile (by decide) (by decide)
      (by decide) (by decide)⟩

set_option maxRecDepth 8192 in
/-- C9 counterexample: the all-strategies-inconclusive file and a
definitively content-confirmed `.log` file produce the identical return
value `can_log` — `detect_format` returns only a dialect tag, so no
low-confidence indicator reaches the caller, contrary to the claim. -/
theorem C9_no_confidence_counterexample :
    detect_format c9IncFile = "can_log".toList ∧
      detect_format c9LogFile = "can_log".toList ∧
      detect_format c9IncFile = detect_format c9LogFile ∧
      (extension_map.lookup (toLowerL c9IncFile.suffix) = none ∧
        detect_by_magic c9IncFile = none ∧ detect_by_content c9IncFile = none ∧
        detect_by_parsing c9IncFile = none) ∧
      detect_by_content c9LogFile = some ("can_log").toList := by
  exact ⟨by decide, by decide, by decide, ⟨by decide, by decide, by decide,
    by decide⟩, by decide⟩
